import Mathlib

/-!
Shallow embedding of the nest-cqrs-factory operation pipeline:
exception taxonomy (operation-failed.exception.ts), validation-error
rendering, builder state machine (operation-builder.service.ts), error
classification, and the dynamic field proxy (operation-factory.service.ts).

JavaScript field values are modelled by an abstract type V; a field slot
holds `Option V`, where `none` stands for the JS value undefined (reading
an absent key and reading a key holding undefined are indistinguishable
through the builder API, exactly as in the source).
-/

/-- Model of a class-validator ValidationError node: a property name, an
optional map of constraint names to constraint messages (in ownKeys
order), and a list of nested child validation errors. -/
inductive ValidationError where
  | mk : String → Option (List (String × String)) → List ValidationError → ValidationError

/-- The property name of a validation error node. -/
def ValidationError.property : ValidationError → String
  | .mk p _ _ => p

/-- The constraints map of a validation error node. -/
def ValidationError.constraints : ValidationError → Option (List (String × String))
  | .mk _ cs _ => cs

/-- The child validation errors of a node. -/
def ValidationError.children : ValidationError → List ValidationError
  | .mk _ _ cs => cs

mutual

/-- Translation of OperationFailedException.buildValidationErrorMessage
(operation-failed.exception.ts, lines 79-107): renders one validation
error, qualifying its path with the parent name when the parent name is
nonempty, appending one tab-indented line per constraint when the
constraints object is present, and — when children exist — appending a
newline followed by the recursively rendered children joined with a
newline plus a tab. -/
def OperationFailedException.buildValidationErrorMessage :
    ValidationError → String → String
  | ValidationError.mk prop constraints children, parentName =>
    let propertyName := if parentName = "" then prop else parentName ++ "." ++ prop
    let message := "Validation of \"" ++ propertyName ++ "\" failed!"
    let constraintsText :=
      match constraints with
      | some cs =>
        "\n\t" ++ String.intercalate "\n\t"
          (cs.map (fun kv => "\"" ++ kv.1 ++ "\": " ++ kv.2 ++ "."))
      | none => ""
    let message2 := message ++ constraintsText
    if 0 < children.length then
      message2 ++ "\n" ++ String.intercalate "\n\t"
        (OperationFailedException.buildValidationErrorMessages children propertyName)
    else
      message2

/-- Renders each validation error of a list against the same parent path,
in order (the error.children.map call in the source). -/
def OperationFailedException.buildValidationErrorMessages :
    List ValidationError → String → List String
  | [], _ => []
  | e :: es, p =>
    OperationFailedException.buildValidationErrorMessage e p ::
      OperationFailedException.buildValidationErrorMessages es p

end

/-- Model of a JS Error value reaching the exception helpers, keeping
exactly the structure the source inspects: an AggregateError (with the
messages of its inner errors), a non-aggregate Error exposing an own
array-valued errors property (with the messages of its elements), or any
other Error (just its message). -/
inductive ErrorVal where
  | aggregate : String → List String → ErrorVal
  | withErrorsArray : String → List String → ErrorVal
  | plain : String → ErrorVal
deriving DecidableEq

/-- The message of a modelled JS Error value. -/
def ErrorVal.message : ErrorVal → String
  | .aggregate m _ => m
  | .withErrorsArray m _ => m
  | .plain m => m

/-- The origError slot of an OperationFailedException: either an ordinary
JS error value, or the AggregateError wrapping validation errors built by
InvalidOperation. -/
inductive OrigError where
  | jsError : ErrorVal → OrigError
  | aggregateValidation : List ValidationError → OrigError

/-- The static errorCodes table of an exception class
(operation-failed.exception.ts, lines 14-18, overridden at lines 120-127
and 139-142). -/
structure ErrorCodes where
  INTERNAL_HANDLER_ERROR : String
  HANDLER_NOT_FOUND : String
  INVALID_OPERATION : String
deriving DecidableEq

/-- The static side of an OperationFailedException class (the value of
`this` inside the static factory methods): its operationType string and
its errorCodes table. -/
structure ExceptionClass where
  operationType : String
  errorCodes : ErrorCodes
deriving DecidableEq

/-- Statics of the base OperationFailedException class. -/
def OperationFailedException.statics : ExceptionClass :=
  { operationType := "Operation",
    errorCodes :=
      { INTERNAL_HANDLER_ERROR := "INTERNAL_HANDLER_ERROR",
        HANDLER_NOT_FOUND := "HANDLER_NOT_FOUND",
        INVALID_OPERATION := "INVALID_OPERATION" } }

/-- Statics of CommandFailedException: operationType becomes Command and
the INVALID_OPERATION entry is renamed INVALID_COMMAND, the other codes
being spread from the base table. -/
def CommandFailedException.statics : ExceptionClass :=
  { operationType := "Command",
    errorCodes :=
      { OperationFailedException.statics.errorCodes with
          INVALID_OPERATION := "INVALID_COMMAND" } }

/-- Statics of QueryFailedException: operationType becomes Query and the
INVALID_OPERATION entry is renamed INVALID_QUERY. -/
def QueryFailedException.statics : ExceptionClass :=
  { operationType := "Query",
    errorCodes :=
      { OperationFailedException.statics.errorCodes with
          INVALID_OPERATION := "INVALID_QUERY" } }

/-- An operation instance as the pipeline sees it: the name of its
constructor (operation.constructor.name) and its field values. -/
structure OperationInstance (V : Type) where
  ctorName : String
  fields : String → Option V

/-- An OperationFailedException value: code, the failed operation, the
human reason, the optional original error, and the Error message computed
by the constructor. -/
structure OperationFailedExceptionVal (V : Type) where
  code : String
  operation : OperationInstance V
  reason : String
  origError : Option OrigError
  message : String

/-- Translation of the OperationFailedException constructor
(operation-failed.exception.ts, lines 20-27): stores code, operation,
reason and origError, and synthesizes the message from the operation
constructor name and the reason. -/
def OperationFailedException.make {V : Type} (code : String)
    (operation : OperationInstance V) (reason : String)
    (origError : Option OrigError) : OperationFailedExceptionVal V :=
  { code := code, operation := operation, reason := reason,
    origError := origError,
    message := "Cqrs operation \"" ++ operation.ctorName ++ "\" failed! " ++ reason }

/-- Translation of the static HandlerNotFound factory (lines 29-41):
code HANDLER_NOT_FOUND of the class and reason built from operationType
and the operation constructor name, keeping the original error. -/
def OperationFailedException.HandlerNotFound {V : Type} (cls : ExceptionClass)
    (operation : OperationInstance V) (origError : ErrorVal) :
    OperationFailedExceptionVal V :=
  let queryName := operation.ctorName
  OperationFailedException.make cls.errorCodes.HANDLER_NOT_FOUND operation
    ("Handler for " ++ cls.operationType ++ " \"" ++ queryName ++ "\" not found!")
    (some (OrigError.jsError origError))

/-- The joined-message cascade inside the static InternalHandlerError
factory (lines 48-56): inner messages of an AggregateError joined by a
newline, else the messages of an own errors array joined by a newline,
else the message of the error itself. -/
def OperationFailedException.internalHandlerErrorOrigMessage : ErrorVal → String
  | .aggregate _ errs => String.intercalate "\n" errs
  | .withErrorsArray _ errs => String.intercalate "\n" errs
  | .plain m => m

/-- Translation of the static InternalHandlerError factory (lines 43-60):
code INTERNAL_HANDLER_ERROR of the class, reason prefixed with
"Internal handler error: " followed by the joined messages, keeping the
original error. -/
def OperationFailedException.InternalHandlerError {V : Type}
    (cls : ExceptionClass) (operation : OperationInstance V)
    (origError : ErrorVal) : OperationFailedExceptionVal V :=
  let code := cls.errorCodes.INTERNAL_HANDLER_ERROR
  let origErrorMessage := OperationFailedException.internalHandlerErrorOrigMessage origError
  let message := "Internal handler error: " ++ origErrorMessage
  OperationFailedException.make code operation message
    (some (OrigError.jsError origError))

/-- Translation of the static InvalidOperation factory (lines 62-77):
code INVALID_OPERATION of the class, reason listing every rendered
validation message joined by a newline, origError an AggregateError
wrapping all validation errors. -/
def OperationFailedException.InvalidOperation {V : Type}
    (cls : ExceptionClass) (action : OperationInstance V)
    (validationErrors : List ValidationError) : OperationFailedExceptionVal V :=
  let validationMessages := String.intercalate "\n"
    (validationErrors.map
      (fun e => OperationFailedException.buildValidationErrorMessage e ""))
  let message := "Invalid " ++ cls.operationType ++ ": " ++ validationMessages
  OperationFailedException.make cls.errorCodes.INVALID_OPERATION action message
    (some (OrigError.aggregateValidation validationErrors))

/-!
## Builder state machine (operation-builder.service.ts)

initState is the plain snapshot produced by materializing the operation
type with an empty input: an ordered list of own keys, each holding an
`Option V` (a declared default, or undefined for default-less declared
fields — the repository test suite relies on default-less declared fields
being present in the snapshot with the value undefined). currState is the
live accumulator, read pointwise.
-/

/-- The two field-value snapshots owned by one builder instance. -/
structure BuilderState (V : Type) where
  initState : List (String × Option V)
  currState : String → Option V

/-- Translation of OperationBuilderBase.clear (lines 75-83): for each key
of initState, in order, assigns the initState value of that key onto
currState; keys absent from initState are untouched. -/
def OperationBuilderBase.clear {V : Type} (b : BuilderState V) : BuilderState V :=
  { b with
    currState :=
      b.initState.foldl
        (fun s kv => fun k => if k = kv.1 then kv.2 else s k)
        b.currState }

/-- Translation of the OperationBuilderBase constructor (lines 44-52):
captures the defaults snapshot as initState, starts from an empty
currState, and runs clear(). -/
def OperationBuilderBase.construct {V : Type}
    (defaults : List (String × Option V)) : BuilderState V :=
  OperationBuilderBase.clear { initState := defaults, currState := fun _ => none }

/-- Translation of OperationBuilderBase.set (lines 85-88): overwrite one
field of currState. -/
def OperationBuilderBase.set {V : Type} (b : BuilderState V) (key : String)
    (value : V) : BuilderState V :=
  { b with currState := fun k => if k = key then some value else b.currState k }

/-- Translation of OperationBuilderBase.get (lines 90-92): read one field
of currState. -/
def OperationBuilderBase.get {V : Type} (b : BuilderState V) (key : String) :
    Option V :=
  b.currState key

/-- A sequence of set calls applied left to right. -/
def OperationBuilderBase.applySets {V : Type} (b : BuilderState V)
    (ops : List (String × V)) : BuilderState V :=
  ops.foldl (fun acc kv => OperationBuilderBase.set acc kv.1 kv.2) b

/-- A failure escaping the builder: either a fatal setup Error (missing
executor or exception factory, outside the taxonomy) or a classified
OperationFailedException. -/
inductive BuilderFailure (V : Type) where
  | fatal : String → BuilderFailure V
  | classified : OperationFailedExceptionVal V → BuilderFailure V

/-- Translation of OperationBuilderBase.build (lines 94-111): materialize
currState into an instance (plainToInstance, an external collaborator
passed in as a function), validate it, fail fatally when no exception
factory is configured, throw InvalidOperation when validation errors
exist, and otherwise return the instance. The builder state is returned
alongside: the source assigns to neither initState nor currState here. -/
def OperationBuilderBase.build {V : Type}
    (exceptionFactory : Option ExceptionClass)
    (materialize : (String → Option V) → OperationInstance V)
    (validateFn : OperationInstance V → List ValidationError)
    (b : BuilderState V) :
    Except (BuilderFailure V) (OperationInstance V) × BuilderState V :=
  let operation := materialize b.currState
  let validationErrors := validateFn operation
  match exceptionFactory with
  | none => (Except.error (BuilderFailure.fatal "Operation exception factory is not set"), b)
  | some cls =>
    if 0 < validationErrors.length then
      (Except.error (BuilderFailure.classified
        (OperationFailedException.InvalidOperation cls operation validationErrors)), b)
    else
      (Except.ok operation, b)

/-- A value thrown by the executor, by the cases the classification
distinguishes: an OperationFailedException (any subclass), the
CommandHandlerNotFoundException or QueryHandlerNotFoundException signals
from the dispatch collaborator, any other Error, or a non-Error value
carried as its string representation. -/
inductive Thrown (V : Type) where
  | opFailed : OperationFailedExceptionVal V → Thrown V
  | commandHandlerNotFound : ErrorVal → Thrown V
  | queryHandlerNotFound : ErrorVal → Thrown V
  | otherError : ErrorVal → Thrown V
  | nonErrorValue : String → Thrown V

/-- Translation of OperationBuilderBase.mapToException (lines 159-181),
first match winning: an OperationFailedException instance is returned
unchanged; a CommandHandlerNotFoundException or a
QueryHandlerNotFoundException becomes HandlerNotFound of the configured
factory; anything else becomes InternalHandlerError, a non-Error thrown
value being first coerced into an Error carrying its string
representation. -/
def OperationBuilderBase.mapToException {V : Type} (cls : ExceptionClass)
    (error : Thrown V) (operation : OperationInstance V) :
    OperationFailedExceptionVal V :=
  match error with
  | .opFailed e => e
  | .commandHandlerNotFound e =>
    OperationFailedException.HandlerNotFound cls operation e
  | .queryHandlerNotFound e =>
    OperationFailedException.HandlerNotFound cls operation e
  | .otherError e =>
    OperationFailedException.InternalHandlerError cls operation e
  | .nonErrorValue s =>
    OperationFailedException.InternalHandlerError cls operation (ErrorVal.plain s)

/-- One structured record handed to the configured logger. -/
inductive LogEvent (V : Type) where
  | success : String → Nat → LogEvent V
  | failure : OperationFailedExceptionVal V → Nat → LogEvent V

/-- Translation of OperationBuilderBase.execute (lines 113-149): fatal
setup Errors when executor or exception factory is missing; then build()
— whose failure propagates outside the try/catch block, before the start
timestamp is taken; then dispatch to the executor inside try/catch. On
success, a success record is logged when a logger is configured and the
result returned; on a thrown value, the value is classified through
mapToException, a failure record is logged when a logger is configured,
and the classified exception is re-thrown. The emitted log records are
returned alongside the outcome; durationInMs stands for the value
computed from the monotonic clock. -/
def OperationBuilderBase.execute {V R : Type}
    (executor : Option (OperationInstance V → Except (Thrown V) R))
    (exceptionFactory : Option ExceptionClass)
    (loggerConfigured : Bool)
    (materialize : (String → Option V) → OperationInstance V)
    (validateFn : OperationInstance V → List ValidationError)
    (durationInMs : Nat)
    (b : BuilderState V) :
    Except (BuilderFailure V) R × List (LogEvent V) :=
  match executor with
  | none => (Except.error (BuilderFailure.fatal "Operation executor is not set"), [])
  | some exec =>
    match exceptionFactory with
    | none => (Except.error (BuilderFailure.fatal "Operation exception factory is not set"), [])
    | some cls =>
      match (OperationBuilderBase.build (some cls) materialize validateFn b).1 with
      | Except.error e => (Except.error e, [])
      | Except.ok operation =>
        match exec operation with
        | Except.ok result =>
          (Except.ok result,
            if loggerConfigured then
              [LogEvent.success operation.ctorName durationInMs]
            else [])
        | Except.error thrown =>
          let exception := OperationBuilderBase.mapToException cls thrown operation
          (Except.error (BuilderFailure.classified exception),
            if loggerConfigured then
              [LogEvent.failure exception durationInMs]
            else [])

/-!
## Dynamic field proxy (operation-factory.service.ts, lines 38-58)

Every property access on the proxy yields a function. Invoking it either
forwards to a builder method (when the accessed name exists on the
target), returning the proxy wrapper whenever the method returned the
builder instance itself, or treats the name as a field accessor: zero
arguments read through get, one or more arguments write the first
argument through set and return the proxy wrapper.
-/

/-- What a builder method invocation returns: the builder instance itself
(with its possibly updated state), or any other value. -/
inductive MethodResult (V R : Type) where
  | selfReturn : BuilderState V → MethodResult V R
  | value : R → MethodResult V R

/-- What the invoked proxy accessor returns: the proxy wrapper (over the
possibly updated builder state), a raw method result, or a field value
read through get. -/
inductive TrapResult (V R : Type) where
  | proxy : BuilderState V → TrapResult V R
  | raw : R → TrapResult V R
  | fieldValue : Option V → TrapResult V R

/-- Translation of the Proxy get trap returned by OperationFactory.create:
methods models the prop-in-target test together with Reflect.apply on the
target; when the accessed name is no method, zero arguments read the
field and one or more arguments write the first argument and return the
proxy wrapper. -/
def OperationFactory.proxyInvoke {V R : Type}
    (methods : String → Option (BuilderState V → List V → MethodResult V R))
    (b : BuilderState V) (prop : String) (args : List V) : TrapResult V R :=
  match methods prop with
  | some m =>
    match m b args with
    | MethodResult.selfReturn b2 => TrapResult.proxy b2
    | MethodResult.value r => TrapResult.raw r
  | none =>
    match args with
    | [] => TrapResult.fieldValue (OperationBuilderBase.get b prop)
    | a :: _ => TrapResult.proxy (OperationBuilderBase.set b prop a)

/-!
## Claim-side rendering of validation errors

The following definitions restate the validation-message format in the
spec's vocabulary (header line, constraint lines, child blocks with their
separators) so that the source renderer can be compared against it.
-/

/-- Concatenation of a list of text segments, in order. -/
def concatAll : List String → String
  | [] => ""
  | s :: rest => s ++ concatAll rest

mutual

/-- The segments of the claim-side rendering: the header line for the
dotted path, one segment per named constraint (each a newline, a tab and
the quoted constraint name with its message and a final period), then one
segment per child block, the first preceded by a newline and every later
one preceded by a newline and a tab, children rendered with the dotted
path as their parent path. -/
def specSegments : ValidationError → String → List String
  | ValidationError.mk prop cs children, parent =>
    let path := if parent = "" then prop else parent ++ "." ++ prop
    ("Validation of \"" ++ path ++ "\" failed!") ::
      ((match cs with
        | some l => l.map (fun kv => "\n\t" ++ ("\"" ++ kv.1 ++ "\": " ++ kv.2 ++ "."))
        | none => []) ++
       specChildBlocks children path true)

/-- The child blocks of the claim-side rendering, with the separator
prefix depending on whether the child is the first one. -/
def specChildBlocks : List ValidationError → String → Bool → List String
  | [], _, _ => []
  | c :: rest, p, isFirst =>
    ((if isFirst then "\n" else "\n\t") ++ concatAll (specSegments c p)) ::
      specChildBlocks rest p false

end

/-- The claim-side validation message: all segments concatenated. -/
def specValidationMessage (e : ValidationError) (parent : String) : String :=
  concatAll (specSegments e parent)

mutual

/-- A validation-error tree is well formed when no node carries a
present-but-empty constraints map (class-validator emits either no
constraints object or a nonempty one). -/
def ValidationError.wellFormed : ValidationError → Bool
  | ValidationError.mk _ cs children =>
    (match cs with
     | some l => !l.isEmpty
     | none => true) && ValidationError.wellFormedList children

/-- Well-formedness of every tree in a list. -/
def ValidationError.wellFormedList : List ValidationError → Bool
  | [] => true
  | c :: rest => ValidationError.wellFormed c && ValidationError.wellFormedList rest

end

/-!
## Concrete instances used to evaluate the definitions
-/

/-- A validation error with two bare children. -/
def exTwoChildrenTree : ValidationError :=
  ValidationError.mk "p" none
    [ValidationError.mk "a" none [], ValidationError.mk "b" none []]

/-- A validation error with constraints and two children, one of them
itself constrained. -/
def exRichTree : ValidationError :=
  ValidationError.mk "user" (some [("isDefined", "user should be defined")])
    [ValidationError.mk "name" (some [("isNotEmpty", "name should not be empty")]) [],
     ValidationError.mk "age" none []]

/-- A bare operation instance named TestCommand. -/
def exOperation : OperationInstance Int :=
  { ctorName := "TestCommand", fields := fun _ => none }

/-- One concrete validation error on the name field. -/
def exValidationError : ValidationError :=
  ValidationError.mk "name" (some [("isNotEmpty", "name should not be empty")]) []

/-- A materializer producing a TestCommand instance over the given
fields. -/
def exMaterialize : (String → Option Int) → OperationInstance Int :=
  fun s => { ctorName := "TestCommand", fields := s }

/-- A validator that always reports the one name violation. -/
def exValidateFail : OperationInstance Int → List ValidationError :=
  fun _ => [exValidationError]

/-- A validator that reports no violation. -/
def exValidateOk : OperationInstance Int → List ValidationError :=
  fun _ => []

/-- An executor that resolves with 42. -/
def exExecutor : OperationInstance Int → Except (Thrown Int) Int :=
  fun _ => Except.ok 42

/-- A method table exposing only the clear method, as a chainable method
returning the builder itself. -/
def exMethods : String → Option (BuilderState Int → List Int → MethodResult Int Int) :=
  fun prop =>
    if prop = "clear" then
      some (fun s _ => MethodResult.selfReturn (OperationBuilderBase.clear s))
    else none

/-- A builder over a shape with one defaulted field. -/
def exBuilder : BuilderState Int :=
  OperationBuilderBase.construct [("age", some 7)]

/-- A defaults snapshot with one defaulted field and one declared field
without a default. -/
def exDefaults : List (String × Option String) :=
  [("name", some "John"), ("age", none)]

/-- A set history touching the declared fields and one undeclared one. -/
def exSetOps : List (String × String) :=
  [("name", "Jane"), ("age", "30"), ("nickname", "JJ")]

/-- A builder state whose accumulator holds a value outside initState. -/
def exStaleBuilder : BuilderState Int :=
  { initState := [("a", some 1), ("b", none)],
    currState := fun k => if k = "c" then some 9 else none }

/-- Strong induction over validation-error trees: a property holding at
every node once it holds at all children holds everywhere. -/
theorem ValidationError.strongInd (P : ValidationError → Prop)
    (h : ∀ p cs children, (∀ c ∈ children, P c) → P (ValidationError.mk p cs children)) :
    ∀ e, P e
  | ValidationError.mk p cs children =>
    h p cs children (fun c hc => ValidationError.strongInd P h c)
termination_by e => sizeOf e
decreasing_by
  have h1 := List.sizeOf_lt_of_mem hc
  simp only [ValidationError.mk.sizeOf_spec]
  omega

/-- The list renderer is the elementwise renderer. -/
theorem buildValidationErrorMessages_eq_map (l : List ValidationError) (p : String) :
    OperationFailedException.buildValidationErrorMessages l p =
      l.map (fun c => OperationFailedException.buildValidationErrorMessage c p) := by
  induction l with
  | nil => rfl
  | cons c rest ih =>
    simp only [OperationFailedException.buildValidationErrorMessages, List.map_cons, ih]

/-- Well-formedness of a list gives well-formedness of each member. -/
theorem ValidationError.wellFormedList_forall (l : List ValidationError)
    (h : ValidationError.wellFormedList l = true) :
    ∀ c ∈ l, ValidationError.wellFormed c = true := by
  induction l with
  | nil => intro c hc; cases hc
  | cons c rest ih =>
    rw [ValidationError.wellFormedList, Bool.and_eq_true] at h
    intro d hd
    rcases List.mem_cons.mp hd with h1 | h2
    · exact h1 ▸ h.1
    · exact ih h.2 d h2

/-- Concatenation distributes over list append. -/
theorem concatAll_append (a b : List String) :
    concatAll (a ++ b) = concatAll a ++ concatAll b := by
  induction a with
  | nil => simp [concatAll]
  | cons s rest ih => simp [concatAll, ih, String.append_assoc]

/-- The accumulator form of String.intercalate as a concatenation of
separator-prefixed segments. -/
theorem intercalate_go_eq_concatAll (s : String) (t : List String) :
    ∀ acc : String, String.intercalate.go acc s t =
      acc ++ concatAll (t.map (fun x => s ++ x)) := by
  induction t with
  | nil => intro acc; simp [String.intercalate.go, concatAll]
  | cons b rest ih =>
    intro acc
    simp only [String.intercalate.go, List.map_cons, concatAll, ih,
      String.append_assoc]

/-- String.intercalate over a nonempty list as a concatenation of the
head and separator-prefixed tails. -/
theorem intercalate_cons_eq_concatAll (s b : String) (t : List String) :
    String.intercalate s (b :: t) = b ++ concatAll (t.map (fun x => s ++ x)) := by
  simp only [String.intercalate, intercalate_go_eq_concatAll]

/-- A separator prepended to an intercalated nonempty mapped list is the
concatenation of the separator-prefixed mapped segments. -/
theorem sep_intercalate_map_eq_concatAll {α : Type} (sep : String)
    (f : α → String) (a : α) (l : List α) :
    sep ++ String.intercalate sep ((a :: l).map f) =
      concatAll ((a :: l).map (fun x => sep ++ f x)) := by
  simp only [List.map_cons, intercalate_cons_eq_concatAll, concatAll,
    List.map_map, Function.comp_def, String.append_assoc]

/-- The non-first child blocks of the claim-side rendering are exactly the
source-rendered children prefixed with a newline and a tab, given that
every child renders equally in both systems. -/
theorem specChildBlocks_false_eq (p : String) (rest : List ValidationError)
    (hIH : ∀ c ∈ rest, OperationFailedException.buildValidationErrorMessage c p =
      concatAll (specSegments c p)) :
    (OperationFailedException.buildValidationErrorMessages rest p).map
        (fun x => "\n\t" ++ x) =
      specChildBlocks rest p false := by
  induction rest with
  | nil => rfl
  | cons c t ih =>
    simp only [OperationFailedException.buildValidationErrorMessages, List.map_cons,
      specChildBlocks, if_neg Bool.false_ne_true]
    rw [hIH c (List.mem_cons_self c t), ih (fun d hd => hIH d (List.mem_cons_of_mem c hd))]

/-- The whole children text of the source rendering equals the
concatenation of the claim-side child blocks, given that every child
renders equally in both systems. -/
theorem childText_eq_concatAll (p : String) (c0 : ValidationError)
    (rest : List ValidationError)
    (hIH : ∀ c ∈ c0 :: rest, OperationFailedException.buildValidationErrorMessage c p =
      concatAll (specSegments c p)) :
    "\n" ++ String.intercalate "\n\t"
        (OperationFailedException.buildValidationErrorMessages (c0 :: rest) p) =
      concatAll (specChildBlocks (c0 :: rest) p true) := by
  simp only [OperationFailedException.buildValidationErrorMessages,
    intercalate_cons_eq_concatAll, specChildBlocks, if_pos rfl, concatAll]
  rw [hIH c0 (List.mem_cons_self c0 rest),
    specChildBlocks_false_eq p rest (fun d hd => hIH d (List.mem_cons_of_mem c0 hd)),
    String.append_assoc]
  simp

/-- C5 (amended): for every well-formed validation-error tree and every
parent path, the message rendered by the source algorithm is the header
line for the dotted path, followed by one newline-and-tab prefixed line
per named constraint, followed by the recursively rendered child blocks —
the first prefixed by a newline and each later one prefixed by a newline
and a tab — with each child path qualified by the parent property
name. -/
theorem C5_source_matches_amended_format :
    ∀ (e : ValidationError) (parentName : String),
      ValidationError.wellFormed e = true →
      OperationFailedException.buildValidationErrorMessage e parentName =
        specValidationMessage e parentName := by
  intro e
  induction e using ValidationError.strongInd with
  | h p cs children IH =>
    intro parent hwf
    rw [ValidationError.wellFormed.eq_def, Bool.and_eq_true] at hwf
    obtain ⟨hcs, hch⟩ := hwf
    have hmem := ValidationError.wellFormedList_forall children hch
    have IH2 : ∀ c ∈ children, ∀ q : String,
        OperationFailedException.buildValidationErrorMessage c q =
          concatAll (specSegments c q) := by
      intro c hc q
      have := IH c hc q (hmem c hc)
      rw [this, specValidationMessage]
    cases cs with
    | none =>
      cases children with
      | nil =>
        simp [OperationFailedException.buildValidationErrorMessage,
          specValidationMessage, specSegments, specChildBlocks, concatAll]
      | cons c0 rest =>
        have hchild := childText_eq_concatAll
          (if parent = "" then p else parent ++ "." ++ p) c0 rest
          (fun d hd => IH2 d hd _)
        simp only [OperationFailedException.buildValidationErrorMessage,
          specValidationMessage, specSegments, List.length_cons, List.nil_append]
        rw [if_pos (Nat.succ_pos rest.length), String.append_assoc, hchild]
        simp [concatAll]
    | some l =>
      cases l with
      | nil => simp at hcs
      | cons kv lrest =>
        cases children with
        | nil =>
          simp only [OperationFailedException.buildValidationErrorMessage,
            specValidationMessage, specSegments, List.length_nil,
            Nat.lt_irrefl, if_false, List.append_nil]
          rw [sep_intercalate_map_eq_concatAll]
          simp [concatAll, specChildBlocks]
        | cons c0 rest =>
          have hchild := childText_eq_concatAll
            (if parent = "" then p else parent ++ "." ++ p) c0 rest
            (fun d hd => IH2 d hd _)
          simp only [OperationFailedException.buildValidationErrorMessage,
            specValidationMessage, specSegments, List.length_cons]
          rw [if_pos (Nat.succ_pos rest.length), String.append_assoc, hchild,
            sep_intercalate_map_eq_concatAll]
          simp [concatAll, concatAll_append, String.append_assoc]

/-- A key absent from the assigned key list is untouched by the clear
loop. -/
theorem clear_foldl_not_mem {V : Type} (l : List (String × Option V))
    (s : String → Option V) (k : String) (h : k ∉ l.map Prod.fst) :
    l.foldl (fun s kv => fun k => if k = kv.1 then kv.2 else s k) s k = s k := by
  induction l generalizing s with
  | nil => rfl
  | cons a t ih =>
    simp only [List.map_cons, List.mem_cons, not_or] at h
    simp only [List.foldl_cons]
    rw [ih _ h.2]
    simp [h.1]

/-- A key present in a duplicate-free assignment list receives exactly its
listed value from the clear loop. -/
theorem clear_foldl_mem {V : Type} (l : List (String × Option V))
    (s : String → Option V) (k : String) (d : Option V)
    (hnd : (l.map Prod.fst).Nodup) (hm : (k, d) ∈ l) :
    l.foldl (fun s kv => fun k => if k = kv.1 then kv.2 else s k) s k = d := by
  induction l generalizing s with
  | nil => cases hm
  | cons a t ih =>
    simp only [List.map_cons, List.nodup_cons] at hnd
    simp only [List.foldl_cons]
    rcases List.mem_cons.mp hm with h1 | h2
    · have hk : k = a.1 := congrArg Prod.fst h1
      have hd : d = a.2 := congrArg Prod.snd h1
      subst hk; subst hd
      rw [clear_foldl_not_mem t _ _ hnd.1]
      simp
    · exact ih _ hnd.2 h2

/-- A set history never changes initState. -/
theorem applySets_initState {V : Type} (ops : List (String × V)) :
    ∀ b : BuilderState V,
      (OperationBuilderBase.applySets b ops).initState = b.initState := by
  induction ops with
  | nil => intro b; rfl
  | cons kv rest ih =>
    intro b
    rw [OperationBuilderBase.applySets, List.foldl_cons]
    exact ih _

/-- clear never changes initState. -/
theorem clear_initState {V : Type} (b : BuilderState V) :
    (OperationBuilderBase.clear b).initState = b.initState := rfl

/-- C1, counterexample to the claim as stated: with a logger configured
and a validation failure inside build(), execute() emits no log record at
all — logFailure is never invoked — while the classified InvalidOperation
exception propagates unchanged. -/
theorem C1_counterexample :
    (OperationBuilderBase.execute (some exExecutor) (some CommandFailedException.statics)
        true exMaterialize exValidateFail 7 (OperationBuilderBase.construct [])).2 = [] ∧
    (OperationBuilderBase.execute (some exExecutor) (some CommandFailedException.statics)
        true exMaterialize exValidateFail 7 (OperationBuilderBase.construct [])).1 =
      Except.error (BuilderFailure.classified
        (OperationFailedException.InvalidOperation CommandFailedException.statics
          (exMaterialize (OperationBuilderBase.construct []).currState)
          [exValidationError])) :=
  ⟨rfl, rfl⟩

/-- C1 (amended): for every builder with a logger configured, when the
internal build() step fails validation, the classified InvalidOperation
exception propagates out of execute() unchanged, but the logger is not
invoked for that failure: build() runs outside the try/catch block, so no
log record at all is emitted. -/
theorem C1_build_failure_propagates_unlogged {V R : Type}
    (exec : OperationInstance V → Except (Thrown V) R)
    (cls : ExceptionClass)
    (materialize : (String → Option V) → OperationInstance V)
    (validateFn : OperationInstance V → List ValidationError)
    (dur : Nat) (b : BuilderState V)
    (h : validateFn (materialize b.currState) ≠ []) :
    OperationBuilderBase.execute (some exec) (some cls) true materialize validateFn dur b =
      (Except.error (BuilderFailure.classified
        (OperationFailedException.InvalidOperation cls (materialize b.currState)
          (validateFn (materialize b.currState)))), []) := by
  have hlen : 0 < (validateFn (materialize b.currState)).length :=
    List.length_pos.mpr h
  simp [OperationBuilderBase.execute, OperationBuilderBase.build, hlen]

/-- C1, witness: the amended theorem applied at a concrete failing
build. -/
theorem C1_witness :
    exValidateFail (exMaterialize (OperationBuilderBase.construct
        ([] : List (String × Option Int))).currState) ≠ [] ∧
    OperationBuilderBase.execute (some exExecutor) (some CommandFailedException.statics)
        true exMaterialize exValidateFail 7 (OperationBuilderBase.construct []) =
      (Except.error (BuilderFailure.classified
        (OperationFailedException.InvalidOperation CommandFailedException.statics
          (exMaterialize (OperationBuilderBase.construct []).currState)
          (exValidateFail (exMaterialize (OperationBuilderBase.construct []).currState)))), []) :=
  ⟨by simp [exValidateFail],
   C1_build_failure_propagates_unlogged exExecutor CommandFailedException.statics
     exMaterialize exValidateFail 7 (OperationBuilderBase.construct [])
     (by simp [exValidateFail])⟩

/-- C2: for every defaults snapshot with duplicate-free keys and every
set history followed by clear(), each field of the snapshot carrying a
declared default reads as that default again, and each declared field of
the snapshot without a default (present in the snapshot as undefined)
reads as unset, regardless of the values set before. -/
theorem C2_clear_restores_shape {V : Type} (defaults : List (String × Option V))
    (ops : List (String × V)) (k : String)
    (hnd : (defaults.map Prod.fst).Nodup) :
    (∀ v, (k, some v) ∈ defaults →
      OperationBuilderBase.get
        (OperationBuilderBase.clear
          (OperationBuilderBase.applySets (OperationBuilderBase.construct defaults) ops)) k =
        some v) ∧
    ((k, none) ∈ defaults →
      OperationBuilderBase.get
        (OperationBuilderBase.clear
          (OperationBuilderBase.applySets (OperationBuilderBase.construct defaults) ops)) k =
        none) := by
  have hinit : (OperationBuilderBase.applySets
      (OperationBuilderBase.construct defaults) ops).initState = defaults := by
    rw [applySets_initState]
    rfl
  constructor
  · intro v hm
    show (OperationBuilderBase.clear _).currState k = some v
    simp only [OperationBuilderBase.clear]
    rw [hinit]
    exact clear_foldl_mem _ _ _ _ hnd hm
  · intro hm
    show (OperationBuilderBase.clear _).currState k = none
    simp only [OperationBuilderBase.clear]
    rw [hinit]
    exact clear_foldl_mem _ _ _ _ hnd hm

/-- C2, witness: the theorem applied to a concrete shape with one default
and one default-less declared field, after a set history that touched
both and one undeclared field. -/
theorem C2_witness :
    ((exDefaults.map Prod.fst).Nodup ∧
      ("name", some "John") ∈ exDefaults ∧
      ("age", (none : Option String)) ∈ exDefaults) ∧
    OperationBuilderBase.get (OperationBuilderBase.clear
      (OperationBuilderBase.applySets (OperationBuilderBase.construct exDefaults)
        exSetOps)) "name" = some "John" ∧
    OperationBuilderBase.get (OperationBuilderBase.clear
      (OperationBuilderBase.applySets (OperationBuilderBase.construct exDefaults)
        exSetOps)) "age" = none :=
  ⟨⟨by decide, by decide, by decide⟩,
   (C2_clear_restores_shape exDefaults exSetOps "name" (by decide)).1 "John" (by decide),
   (C2_clear_restores_shape exDefaults exSetOps "age" (by decide)).2 (by decide)⟩

/-- C3: classification of a value thrown by the executor, first match
winning: an OperationFailedException of any subclass passes through
unchanged; either handler-not-found signal becomes the factory
HandlerNotFound carrying the signal as origError; any other Error becomes
InternalHandlerError keeping it as origError; a non-Error value becomes
InternalHandlerError over a fresh Error whose message is the value's
string representation. -/
theorem C3_classification_cases {V : Type} (cls : ExceptionClass)
    (op : OperationInstance V) :
    (∀ exn, OperationBuilderBase.mapToException cls (Thrown.opFailed exn) op = exn) ∧
    (∀ e, OperationBuilderBase.mapToException cls (Thrown.commandHandlerNotFound e) op =
        OperationFailedException.HandlerNotFound cls op e ∧
      (OperationBuilderBase.mapToException cls (Thrown.commandHandlerNotFound e) op).origError =
        some (OrigError.jsError e)) ∧
    (∀ e, OperationBuilderBase.mapToException cls (Thrown.queryHandlerNotFound e) op =
        OperationFailedException.HandlerNotFound cls op e) ∧
    (∀ e, OperationBuilderBase.mapToException cls (Thrown.otherError e) op =
        OperationFailedException.InternalHandlerError cls op e ∧
      (OperationBuilderBase.mapToException cls (Thrown.otherError e) op).origError =
        some (OrigError.jsError e)) ∧
    (∀ s, OperationBuilderBase.mapToException cls (Thrown.nonErrorValue s) op =
        OperationFailedException.InternalHandlerError cls op (ErrorVal.plain s) ∧
      (ErrorVal.plain s).message = s) :=
  ⟨fun _ => rfl, fun _ => ⟨rfl, rfl⟩, fun _ => rfl, fun _ => ⟨rfl, rfl⟩,
   fun _ => ⟨rfl, rfl⟩⟩

/-- C4, counterexample to the claim as stated: the synthesized message
starts with the words Cqrs operation, not with the word Operation. -/
theorem C4_counterexample :
    (OperationFailedException.make "INTERNAL_HANDLER_ERROR" exOperation
        "Test reason" none).message ≠
      "Operation \"TestCommand\" failed! Test reason" := by
  decide

/-- C4 (amended): for every code, operation, reason and optional original
error, the constructor synthesizes exactly the message Cqrs operation
"<constructor name>" failed! <reason>. -/
theorem C4_message_format {V : Type} (code : String) (op : OperationInstance V)
    (reason : String) (origError : Option OrigError) :
    (OperationFailedException.make code op reason origError).message =
      "Cqrs operation \"" ++ op.ctorName ++ "\" failed! " ++ reason := rfl

/-- C5, counterexample to the claim as stated: on a tree with two child
errors the source separates the second child block with a newline plus a
tab, not with a bare newline as claimed. -/
theorem C5_counterexample :
    OperationFailedException.buildValidationErrorMessage exTwoChildrenTree "" ≠
      "Validation of \"p\" failed!\nValidation of \"p.a\" failed!\nValidation of \"p.b\" failed!" := by
  decide

/-- C5, witness: the amended theorem applied to a concrete well-formed
tree with constraints and two children. -/
theorem C5_witness :
    ValidationError.wellFormed exRichTree = true ∧
    OperationFailedException.buildValidationErrorMessage exRichTree "" =
      specValidationMessage exRichTree "" :=
  ⟨by decide, C5_source_matches_amended_format exRichTree "" (by decide)⟩

/-- C6: for an accessed name that is no builder method, invoking the
accessor with one argument stores it through set and returns the proxy
wrapper, and a following zero-argument invocation of the same accessor
reads that value back through get; for a name that is a builder method,
the call is forwarded to the method, the proxy wrapper being returned
exactly when the method returned the builder instance itself. -/
theorem C6_proxy_accessor {V R : Type}
    (methods : String → Option (BuilderState V → List V → MethodResult V R))
    (b : BuilderState V) (prop : String) (v : V) (args : List V) :
    (methods prop = none →
      OperationFactory.proxyInvoke methods b prop [v] =
        TrapResult.proxy (OperationBuilderBase.set b prop v) ∧
      OperationFactory.proxyInvoke methods (OperationBuilderBase.set b prop v) prop [] =
        TrapResult.fieldValue (some v)) ∧
    (∀ m, methods prop = some m →
      (∀ b2, m b args = MethodResult.selfReturn b2 →
        OperationFactory.proxyInvoke methods b prop args = TrapResult.proxy b2) ∧
      (∀ r, m b args = MethodResult.value r →
        OperationFactory.proxyInvoke methods b prop args = TrapResult.raw r)) := by
  constructor
  · intro h
    constructor
    · simp [OperationFactory.proxyInvoke, h]
    · simp [OperationFactory.proxyInvoke, h, OperationBuilderBase.get,
        OperationBuilderBase.set]
  · intro m hm
    constructor
    · intro b2 hb2
      simp [OperationFactory.proxyInvoke, hm, hb2]
    · intro r hr
      simp [OperationFactory.proxyInvoke, hm, hr]

/-- C6, witness: the theorem applied to a concrete method table exposing
only a chainable clear method, a fresh field name, and a value. -/
theorem C6_witness :
    (OperationFactory.proxyInvoke exMethods exBuilder "name" [5] =
        TrapResult.proxy (OperationBuilderBase.set exBuilder "name" 5) ∧
      OperationFactory.proxyInvoke exMethods
          (OperationBuilderBase.set exBuilder "name" 5) "name" [] =
        TrapResult.fieldValue (some 5)) ∧
    OperationFactory.proxyInvoke exMethods exBuilder "clear" [] =
      TrapResult.proxy (OperationBuilderBase.clear exBuilder) :=
  ⟨(C6_proxy_accessor exMethods exBuilder "name" 5 []).1 rfl,
   ((C6_proxy_accessor exMethods exBuilder "clear" 5 []).2
       (fun s _ => MethodResult.selfReturn (OperationBuilderBase.clear s)) rfl).1
     (OperationBuilderBase.clear exBuilder) rfl⟩

/-- C7: the InternalHandlerError factory produces the reason Internal
handler error: followed by the inner messages of an AggregateError joined
by newlines, else the messages of an exposed errors array joined by
newlines, else the error's own message; its code is the class
INTERNAL_HANDLER_ERROR entry — INTERNAL_HANDLER_ERROR for the base,
command and query classes alike — and the original error is preserved on
the exception. -/
theorem C7_internal_handler_error {V : Type} (cls : ExceptionClass)
    (op : OperationInstance V) (e : ErrorVal) :
    (OperationFailedException.InternalHandlerError cls op e).reason =
      "Internal handler error: " ++
        (match e with
         | ErrorVal.aggregate _ errs => String.intercalate "\n" errs
         | ErrorVal.withErrorsArray _ errs => String.intercalate "\n" errs
         | ErrorVal.plain m => m) ∧
    (OperationFailedException.InternalHandlerError cls op e).code =
      cls.errorCodes.INTERNAL_HANDLER_ERROR ∧
    (OperationFailedException.InternalHandlerError cls op e).origError =
      some (OrigError.jsError e) ∧
    OperationFailedException.statics.errorCodes.INTERNAL_HANDLER_ERROR =
      "INTERNAL_HANDLER_ERROR" ∧
    CommandFailedException.statics.errorCodes.INTERNAL_HANDLER_ERROR =
      "INTERNAL_HANDLER_ERROR" ∧
    QueryFailedException.statics.errorCodes.INTERNAL_HANDLER_ERROR =
      "INTERNAL_HANDLER_ERROR" := by
  refine ⟨?_, rfl, rfl, rfl, rfl, rfl⟩
  cases e <;> rfl

/-- C8: build() returns the builder state unchanged, on success and on
validation failure alike, so every get reads the same value after build()
as before it. -/
theorem C8_build_preserves_state {V : Type} (ef : Option ExceptionClass)
    (materialize : (String → Option V) → OperationInstance V)
    (validateFn : OperationInstance V → List ValidationError)
    (b : BuilderState V) :
    (OperationBuilderBase.build ef materialize validateFn b).2 = b ∧
    ∀ k, OperationBuilderBase.get
        (OperationBuilderBase.build ef materialize validateFn b).2 k =
      OperationBuilderBase.get b k := by
  have h2 : (OperationBuilderBase.build ef materialize validateFn b).2 = b := by
    unfold OperationBuilderBase.build
    cases ef with
    | none => rfl
    | some cls =>
      dsimp only
      split <;> rfl
  exact ⟨h2, fun k => by rw [h2]⟩

/-- C9: clear() copies onto currState the value of every key present in
the duplicate-free initState, and leaves every key absent from initState
unchanged in currState. -/
theorem C9_clear_copies_initState {V : Type} (b : BuilderState V) (k : String)
    (hnd : (b.initState.map Prod.fst).Nodup) :
    (∀ d, (k, d) ∈ b.initState → (OperationBuilderBase.clear b).currState k = d) ∧
    (k ∉ b.initState.map Prod.fst →
      (OperationBuilderBase.clear b).currState k = b.currState k) := by
  constructor
  · intro d hm
    simp only [OperationBuilderBase.clear]
    exact clear_foldl_mem _ _ _ _ hnd hm
  · intro hk
    simp only [OperationBuilderBase.clear]
    exact clear_foldl_not_mem _ _ _ hk

/-- C9, witness: the theorem applied to a concrete builder whose
accumulator holds a key outside initState. -/
theorem C9_witness :
    (exStaleBuilder.initState.map Prod.fst).Nodup ∧
    (OperationBuilderBase.clear exStaleBuilder).currState "a" = some 1 ∧
    (OperationBuilderBase.clear exStaleBuilder).currState "c" =
      exStaleBuilder.currState "c" :=
  ⟨by decide,
   (C9_clear_copies_initState exStaleBuilder "a" (by decide)).1 (some 1) (by decide),
   (C9_clear_copies_initState exStaleBuilder "c" (by decide)).2 (by decide)⟩

/-- C10: the classification branches of the shared builder base recognize
both handler-not-found signals, so a command-configured factory and a
query-configured factory each map either signal to a HANDLER_NOT_FOUND
exception through their exception factory. -/
theorem C10_both_signals_both_kinds {V : Type} (op : OperationInstance V)
    (e : ErrorVal) :
    (OperationBuilderBase.mapToException CommandFailedException.statics
        (Thrown.commandHandlerNotFound e) op).code = "HANDLER_NOT_FOUND" ∧
    (OperationBuilderBase.mapToException CommandFailedException.statics
        (Thrown.queryHandlerNotFound e) op).code = "HANDLER_NOT_FOUND" ∧
    (OperationBuilderBase.mapToException QueryFailedException.statics
        (Thrown.commandHandlerNotFound e) op).code = "HANDLER_NOT_FOUND" ∧
    (OperationBuilderBase.mapToException QueryFailedException.statics
        (Thrown.queryHandlerNotFound e) op).code = "HANDLER_NOT_FOUND" ∧
    OperationBuilderBase.mapToException CommandFailedException.statics
        (Thrown.queryHandlerNotFound e) op =
      OperationFailedException.HandlerNotFound CommandFailedException.statics op e ∧
    OperationBuilderBase.mapToException QueryFailedException.statics
        (Thrown.commandHandlerNotFound e) op =
      OperationFailedException.HandlerNotFound QueryFailedException.statics op e :=
  ⟨rfl, rfl, rfl, rfl, rfl, rfl⟩
